import Mathlib

/-!
Verification development for the selfsign-path-tool repository.

The Go sources are shallowly embedded: strings are lists of characters,
the flat per-directory file systems are association lists, and each Go
function is translated into an executable Lean definition of the same
name.  Randomness (RSA key generation, random file suffixes, random
overwrite bytes) is passed in explicitly as oracle arguments; operating
system I/O failures other than the ones the Go code branches on are
outside the model.
-/

set_option maxRecDepth 20000

/-- Go strings are modelled as lists of characters. -/
abbrev Str := List Char

/-- A file system entry of the target directory: either a readable file
with known contents, or a file that exists but whose contents cannot be
read (an I/O error on `os.ReadFile`). -/
inductive FileData where
  | readable (content : Str)
  | unreadable
deriving DecidableEq, Repr

/-- A flat directory, modelled as an association list from file name to
entry.  `writeFs` and `removeFs` keep at most one entry per name. -/
abbrev FsOf (α : Type) := List (Str × α)

/-- The directory holding the signing targets and their sidecar files. -/
abbrev Fs := FsOf FileData

/-- First-match lookup (the model of `os.Stat` / `os.ReadFile`). -/
def lookupFs {α : Type} (k : Str) : FsOf α → Option α
  | [] => none
  | (n, d) :: rest => if n = k then some d else lookupFs k rest

/-- Remove every entry named `k` (the model of `os.Remove`). -/
def removeFs {α : Type} (k : Str) : FsOf α → FsOf α
  | [] => []
  | (n, d) :: rest => if n = k then removeFs k rest else (n, d) :: removeFs k rest

/-- Create or overwrite the entry named `k` (the model of `os.WriteFile`). -/
def writeFs {α : Type} (k : Str) (d : α) (fs : FsOf α) : FsOf α :=
  (k, d) :: removeFs k fs

/- ### String helpers (models of the `strings` package functions used) -/

/-- `strings.HasPrefix`: first argument is the prefix to test. -/
def strHasPre : Str → Str → Bool
  | [], _ => true
  | _ :: _, [] => false
  | p :: ps, c :: cs => p == c && strHasPre ps cs

/-- `strings.TrimPrefix`. -/
def strTrimPre (pre s : Str) : Str :=
  if strHasPre pre s then s.drop pre.length else s

/-- `strings.Contains s sub` (substring occurrence). -/
def strContains : Str → Str → Bool
  | s, sub =>
    match s with
    | [] => sub.isEmpty
    | _ :: t => strHasPre sub s || strContains t sub

/-- `strings.Split s "\n"`. -/
def splitNl : Str → List Str
  | [] => [[]]
  | c :: rest =>
    if c = '\n' then [] :: splitNl rest
    else
      match splitNl rest with
      | [] => [[c]]
      | s :: ss => (c :: s) :: ss

/- ### Data model: certificates and RSA keys (part_005, sign.go) -/

/-- The numeric components of an `rsa.PrivateKey` that the erasure step
overwrites: the private exponent `D` and the prime factors `Primes`,
modelled by their `big.Int` values. -/
structure RsaKey where
  d : Nat
  primes : List Nat
deriving DecidableEq, Repr

/-- The fields of a parsed `x509.Certificate` that the program reads:
subject common name, issuer common name and serial number.
`createSelfSignedCertificate` signs the template with itself, so for
generated certificates `issuerCN = commonName`. -/
structure CertData where
  commonName : Str
  issuerCN : Str
  serialNumber : Nat
deriving DecidableEq, Repr

/-- `pkix.Name.String()` for a name whose only set field is the common
name, as produced by `createSelfSignedCertificate`. -/
def certDnStr (c : CertData) : Str := "CN=".data ++ c.commonName

/-- The `Certificate` struct of part_005: subject string, parsed
certificate handle, and private key. -/
structure Certificate where
  subject : Str
  cert : CertData
  privateKey : RsaKey
deriving DecidableEq, Repr

/-- The `SignatureStatus` struct of sign.go. -/
structure SignatureStatus where
  status : Str
  signerCertificate : Str
  timestampCertificate : Str
  isSelfSigned : Bool
deriving DecidableEq, Repr

/- ### Platform signing backend (sign_linux.go; the sidecar logic of
sign_windows.go is identical up to the timestamp and PLATFORM lines) -/

/-- The sidecar contents written by `signFilePlatform` (linux build):
`fmt.Sprintf("SIGNED_BY=%s\nTIMESTAMP=%s\nCERT_SUBJECT=%s\nPLATFORM=linux\n",
cert.Subject, "2024-01-01T00:00:00Z", cert.Cert.Subject.String())`. -/
def sigContent (cert : Certificate) : Str :=
  "SIGNED_BY=".data ++ cert.subject ++ '\n' ::
    ("TIMESTAMP=2024-01-01T00:00:00Z".data ++ '\n' ::
      ("CERT_SUBJECT=".data ++ certDnStr cert.cert ++ '\n' ::
        ("PLATFORM=linux".data ++ ['\n'])))

/-- `signFilePlatform` (sign_linux.go): writes `<target>.sig` without
ever opening or checking the target file; the model's single writable
directory accepts the `os.WriteFile`, so the error is always `none`. -/
def signFilePlatform (fs : Fs) (filename : Str) (cert : Certificate) :
    Fs × Option String :=
  let signatureFile := filename ++ ".sig".data
  (writeFs signatureFile (FileData.readable (sigContent cert)) fs, none)

/-- The status value built before the parsing loop of
`getFileSignatureStatusPlatform`: `Status = "Valid"`, `IsSelfSigned = true`. -/
def initialValidStatus : SignatureStatus :=
  { status := "Valid".data, signerCertificate := [],
    timestampCertificate := [], isSelfSigned := true }

/-- One iteration of the `for _, line := range lines` loop of
`getFileSignatureStatusPlatform`. -/
def parseSigLine (st : SignatureStatus) (line : Str) : SignatureStatus :=
  if strHasPre "SIGNED_BY=".data line then
    { st with signerCertificate := strTrimPre "SIGNED_BY=".data line }
  else if strHasPre "CERT_SUBJECT=".data line then
    { st with isSelfSigned :=
        strContains (strTrimPre "CERT_SUBJECT=".data line) "LocalSign".data }
  else st

/-- `getFileSignatureStatusPlatform` (sign_linux.go): absent sidecar is
`NotSigned`; a sidecar that exists but cannot be read is the error
status; otherwise the contents are split on newlines and folded through
the parsing loop.  The Go function returns a `nil` error on every path,
modelled by the second component. -/
def getFileSignatureStatusPlatform (fs : Fs) (filename : Str) :
    SignatureStatus × Option String :=
  let signatureFile := filename ++ ".sig".data
  match lookupFs signatureFile fs with
  | none =>
      ({ status := "NotSigned".data, signerCertificate := [],
         timestampCertificate := [], isSelfSigned := false }, none)
  | some FileData.unreadable =>
      ({ status := "Error reading signature".data, signerCertificate := [],
         timestampCertificate := [], isSelfSigned := false }, none)
  | some (FileData.readable content) =>
      ((splitNl content).foldl parseSigLine initialValidStatus, none)

/-- `removeSelfSignedSignaturePlatform` (sign_linux.go): consults the
status; `NotSigned` and non-self-signed files are left untouched with
`removed = false`; a self-signed sidecar is removed.  The status call
never returns an error (see `getFileSignatureStatusPlatform`), and the
`os.Remove` succeeds because the sidecar exists whenever the status is
not `NotSigned`. -/
def removeSelfSignedSignaturePlatform (fs : Fs) (filename : Str) :
    Fs × Bool × Option String :=
  let signatureFile := filename ++ ".sig".data
  let st := (getFileSignatureStatusPlatform fs filename).1
  if st.status = "NotSigned".data then (fs, false, none)
  else if st.isSelfSigned then (removeFs signatureFile fs, true, none)
  else (fs, false, none)

/- ### Certificate store adapter (part_005) -/

/-- A file in the certificate store directory: a PEM certificate file, a
PEM PKCS#8 private-key file, or bytes that fail PEM/X.509 parsing. -/
inductive StoreData where
  | certPem (c : CertData)
  | keyPem (k : RsaKey)
  | junk
deriving DecidableEq, Repr

/-- The certificate store directory (`getCertificateDirectory`),
modelled as its own flat namespace. -/
abbrev StoreFs := FsOf StoreData

/-- `pem.Decode` + `x509.ParseCertificate` on the bytes of a store file. -/
def parseCertPem : StoreData → Option CertData
  | StoreData.certPem c => some c
  | _ => none

/-- `x509.ParsePKCS1PrivateKey` with the PKCS#8 fallback: only a
well-formed PEM RSA key file parses. -/
def parseKeyPem : StoreData → Option RsaKey
  | StoreData.keyPem k => some k
  | _ => none

/-- `loadCertificateFromFile` (part_005): read and parse the certificate
file, then the key file; any missing file or parse failure is an error.
The loaded subject is the certificate's common name
(`cert.Subject.CommonName`). -/
def loadCertificateFromFile (fs : StoreFs) (certFile keyFile : Str) :
    Except String Certificate :=
  match lookupFs certFile fs with
  | none => Except.error "failed to read certificate file"
  | some certData =>
    match parseCertPem certData with
    | none => Except.error "failed to decode or parse PEM certificate"
    | some cert =>
      match lookupFs keyFile fs with
      | none => Except.error "failed to read key file"
      | some keyData =>
        match parseKeyPem keyData with
        | none => Except.error "failed to parse private key"
        | some privateKey =>
          Except.ok { subject := cert.commonName, cert := cert,
                      privateKey := privateKey }

/-- The result of one certificate acquisition: the store directory after
the call, the returned certificate or error, and whether the generation
and trust-store-installation side effects ran. -/
structure AcqResult where
  store : StoreFs
  result : Except String Certificate
  generated : Bool
  installAttempted : Bool
deriving Repr

/-- The `x509.Certificate` template of `createSelfSignedCertificate`:
`SerialNumber: big.NewInt(1)`, common name = the subject argument, and
issuer = subject because the template is its own signing parent. -/
def certTemplate (subjectName : Str) : CertData :=
  { commonName := subjectName, issuerCN := subjectName, serialNumber := 1 }

/-- `createSelfSignedCertificate` (part_005): generate a key (the
`freshKey` oracle argument models `rsa.GenerateKey`), build the
self-signed certificate, persist `<subject>.crt` / `<subject>.key` via
`saveCertificateFiles`, and attempt trust-store installation.  Save and
install failures are warnings that do not change the returned value. -/
def createSelfSignedCertificate (store : StoreFs) (subjectName : Str)
    (freshKey : RsaKey) : AcqResult :=
  let cert := certTemplate subjectName
  let store₁ := writeFs (subjectName ++ ".crt".data) (StoreData.certPem cert) store
  let store₂ := writeFs (subjectName ++ ".key".data) (StoreData.keyPem freshKey) store₁
  { store := store₂,
    result := Except.ok { subject := subjectName, cert := cert, privateKey := freshKey },
    generated := true, installAttempted := true }

/-- `getOrCreateSelfSignedCertificate` (part_005): if `os.Stat` succeeds
on both `<subject>.crt` and `<subject>.key`, load that pair (a parse
failure there is returned as an error); otherwise create a new
certificate. -/
def getOrCreateSelfSignedCertificate (store : StoreFs) (subjectName : Str)
    (freshKey : RsaKey) : AcqResult :=
  let certFile := subjectName ++ ".crt".data
  let keyFile := subjectName ++ ".key".data
  if (lookupFs certFile store).isSome && (lookupFs keyFile store).isSome then
    { store := store,
      result := loadCertificateFromFile store certFile keyFile,
      generated := false, installAttempted := false }
  else
    createSelfSignedCertificate store subjectName freshKey

/- ### Secure erasure service (part_000) -/

/-- The observable steps of the erasure procedure, in execution order:
zeroing the in-memory key components, one random overwrite pass of an
on-disk file, and unlinking an on-disk file. -/
inductive EraseEvent where
  | memZero
  | overwritePass (name : Str)
  | removeFile (name : Str)
deriving DecidableEq, Repr

/-- The in-memory destruction step: `SetBytes(make([]byte, (BitLen+7)/8))`
on `D` and on each prime sets each component to the zero value (a buffer
of zero bytes of the component's byte length). -/
def zeroedKey (k : RsaKey) : RsaKey :=
  { d := 0, primes := k.primes.map (fun _ => 0) }

/-- `securelyDeleteFile` (part_000): a file that no longer exists is a
success with no disk activity; an existing file gets three full-file
random overwrite passes (each seeking to the start and syncing; the
random bytes are irrelevant to the final state because the file is
unlinked immediately afterwards) and is then removed. -/
def securelyDeleteFile (store : StoreFs) (name : Str) :
    StoreFs × Option String × List EraseEvent :=
  match lookupFs name store with
  | none => (store, none, [])
  | some _ =>
      (removeFs name store, none,
       [EraseEvent.overwritePass name, EraseEvent.overwritePass name,
        EraseEvent.overwritePass name, EraseEvent.removeFile name])

/-- The `for _, keyFile := range matches` loops of
`securelyDeletePrivateKey`: delete each matched file in turn, collecting
per-file warnings without aborting the remaining files. -/
def secureDeleteAll : StoreFs → List Str → StoreFs × List String × List EraseEvent
  | store, [] => (store, [], [])
  | store, n :: rest =>
    let r₁ := securelyDeleteFile store n
    let r₂ := secureDeleteAll r₁.1 rest
    (r₂.1, (match r₁.2.1 with | none => r₂.2.1 | some m => m :: r₂.2.1),
     r₁.2.2 ++ r₂.2.2)

/-- The non-empty suffixes of a string followed by the empty suffix:
the candidate remainders a `*` can leave for the rest of a pattern. -/
def strSuffixes : Str → List Str
  | [] => [[]]
  | c :: cs => (c :: cs) :: strSuffixes cs

/-- `*`-glob matching as used by `filepath.Glob` on the patterns of
part_000 (file names inside one directory, so no separators): a `*`
matches any character sequence, every other pattern character matches
itself. -/
def globMatch : Str → Str → Bool
  | [], n => n.isEmpty
  | '*' :: ps, n => (strSuffixes n).any (fun t => globMatch ps t)
  | _ :: _, [] => false
  | p :: ps, c :: cs => p == c && globMatch ps cs

/-- `filepath.Glob` over the store directory: the names present in the
directory that match the pattern.  (`filepath.Glob` returns the matches
sorted; the order is irrelevant to every property proved here, so the
directory order is used.) -/
def globNames (store : StoreFs) (pat : Str) : List Str :=
  (store.map Prod.fst).filter (globMatch pat)

/-- The erasure result: the key after in-memory destruction, the store
directory after on-disk cleanup, the accumulated warnings, and the event
trace in execution order. -/
structure EraseResult where
  key : RsaKey
  store : StoreFs
  errs : List String
  events : List EraseEvent
deriving Repr

/-- `securelyDeletePrivateKey` (part_000): first overwrite the key's
numeric components in memory, then glob `LocalSign-OneTime-*.key` and
securely delete each match, then glob `LocalSign-OneTime-*.crt` and do
the same.  Warnings accumulate; the function mutates nothing else. -/
def securelyDeletePrivateKey (privateKey : RsaKey) (store : StoreFs) : EraseResult :=
  let key' := zeroedKey privateKey
  let kMatches := globNames store "LocalSign-OneTime-*.key".data
  let r₁ := secureDeleteAll store kMatches
  let cMatches := globNames r₁.1 "LocalSign-OneTime-*.crt".data
  let r₂ := secureDeleteAll r₁.1 cMatches
  { key := key', store := r₂.1, errs := r₁.2.1 ++ r₂.2.1,
    events := EraseEvent.memZero :: (r₁.2.2 ++ r₂.2.2) }

/- ### CLI orchestrator (part_007: main, run, getTargetFiles, signFiles) -/

/-- The command line flags of part_007 with their Go default values as
defaults. -/
structure Flags where
  recurse : Bool := false
  name : Str := "LocalSign-SelfSigned".data
  certFile : Str := []
  keyFile : Str := []
  clear : Bool := false
  status : Bool := false
  help : Bool := false
  version : Bool := false
  gui : Bool := false
deriving Repr

/-- The state the program can read or mutate: the directory of signing
targets, the certificate store directory, and the namespace of
user-supplied external certificate and key files. -/
structure World where
  target : Fs
  store : StoreFs
  external : StoreFs
deriving Repr

/-- `getCertificate` (part_005): external-file mode when both paths are
non-empty, otherwise named-reuse mode against the store directory. -/
def getCertificate (fl : Flags) (w : World) (freshKey : RsaKey) : AcqResult :=
  if !fl.certFile.isEmpty && !fl.keyFile.isEmpty then
    { store := w.store,
      result := loadCertificateFromFile w.external fl.certFile fl.keyFile,
      generated := false, installAttempted := false }
  else
    getOrCreateSelfSignedCertificate w.store fl.name freshKey

/-- Whether a pattern argument contains any of the glob metacharacters
`strings.ContainsAny(pattern, "*?[]")` checks for. -/
def hasGlobChar (p : Str) : Bool :=
  p.any (fun c => c == '*' || c == '?' || c == '[' || c == ']')

/-- The `seen`-map deduplication of `getTargetFiles`: append each new
name that is not already collected. -/
def addUnique (files : List Str) (xs : List Str) : List Str :=
  xs.foldl (fun acc x => if x ∈ acc then acc else acc ++ [x]) files

/-- The pattern loop of `getTargetFiles` (part_007).  The model's
namespaces are flat, so `os.Stat` never reports a directory and the
`info.IsDir()` branch is never taken.  A glob pattern contributes the
existing matching names; a plain path is kept only when `os.Stat`
succeeds on it — otherwise a "File not found" warning is printed and the
path is dropped from the result. -/
def gtfLoop (fs : Fs) : List Str → List Str → List Str → List Str × List Str
  | [], files, warns => (files, warns)
  | p :: rest, files, warns =>
    if hasGlobChar p then
      gtfLoop fs rest (addUnique files ((fs.map Prod.fst).filter (globMatch p))) warns
    else
      match lookupFs p fs with
      | some _ =>
          if p ∈ files then gtfLoop fs rest files warns
          else gtfLoop fs rest (files ++ [p]) warns
      | none => gtfLoop fs rest files (warns ++ [p])

/-- `getTargetFiles` (part_007): the collected target files in input
order, and the plain paths that produced a "File not found" warning. -/
def getTargetFiles (fs : Fs) (patterns : List Str) : List Str × List Str :=
  gtfLoop fs patterns [] []

/-- The per-file loop of `signFiles`: the updated target directory, the
count of files signed, and each file's result in order. -/
def signLoop (cert : Certificate) : Fs → List Str → Fs × Nat × List (Str × Option String)
  | fs, [] => (fs, 0, [])
  | fs, f :: rest =>
    match signFilePlatform fs f cert with
    | (fs₁, none) =>
        let (fs₂, n, per) := signLoop cert fs₁ rest
        (fs₂, n + 1, (f, none) :: per)
    | (fs₁, some e) =>
        let (fs₂, n, per) := signLoop cert fs₁ rest
        (fs₂, n, (f, some e) :: per)

/-- The per-file loop of `clearSignatures`: the updated target directory
and the count of removed signatures.  (Per-file errors are printed and
skipped; the backend model returns none.) -/
def clearLoop : Fs → List Str → Fs × Nat
  | fs, [] => (fs, 0)
  | fs, f :: rest =>
    let (fs₁, removed, _) := removeSelfSignedSignaturePlatform fs f
    let (fs₂, n) := clearLoop fs₁ rest
    (fs₂, if removed then n + 1 else n)

/-- `showStatus` (part_007): the per-file report lines. -/
def showStatus (fs : Fs) (files : List Str) : List (Str × SignatureStatus) :=
  files.map (fun f => (f, (getFileSignatureStatusPlatform fs f).1))

/-- The observable outcome of one `run` call: the error returned to
`main` (non-`none` means exit code 1), the target list the mode loop
iterated over, the "File not found" warnings, and the mode-specific
counters and per-file results. -/
structure RunReport where
  err : Option String := none
  noFilesFound : Bool := false
  attempted : List Str := []
  notFound : List Str := []
  signedCount : Nat := 0
  perFile : List (Str × Option String) := []
  removedCount : Nat := 0
  statuses : List (Str × SignatureStatus) := []
deriving DecidableEq, Repr

/-- `signFiles` (part_007): acquire the certificate (fatal on failure),
then sign each file, recording per-file warnings without aborting. -/
def signFiles (fl : Flags) (w : World) (freshKey : RsaKey)
    (files warns : List Str) : World × RunReport :=
  let acq := getCertificate fl w freshKey
  match acq.result with
  | Except.error e =>
      ({ w with store := acq.store },
       { err := some ("failed to obtain signing certificate: " ++ e),
         attempted := files, notFound := warns })
  | Except.ok cert =>
      let r := signLoop cert w.target files
      ({ target := r.1, store := acq.store, external := w.external },
       { err := none, attempted := files, notFound := warns,
         signedCount := r.2.1, perFile := r.2.2 })

/-- `run` (part_007): collect the target files; an empty match set
returns success immediately; otherwise dispatch on `--status`, `--clear`
or the default sign mode. -/
def runGo (fl : Flags) (patterns : List Str) (w : World) (freshKey : RsaKey) :
    World × RunReport :=
  let fw := getTargetFiles w.target patterns
  let files := fw.1
  let warns := fw.2
  if files.isEmpty then
    (w, { err := none, noFilesFound := true, notFound := warns })
  else if fl.status then
    (w, { err := none, attempted := files, notFound := warns,
          statuses := showStatus w.target files })
  else if fl.clear then
    let tc := clearLoop w.target files
    ({ w with target := tc.1 },
     { err := none, attempted := files, notFound := warns, removedCount := tc.2 })
  else
    signFiles fl w freshKey files warns

/-- How one invocation of `main` (part_007) ends. -/
inductive MainOutcome where
  | exitedVersion
  | guiUnsupported
  | showedHelp
  | configError
  | missingArgs
  | ran (r : RunReport)
deriving DecidableEq, Repr

/-- The process exit code of each outcome (linux build: `--gui` exits 1). -/
def exitCode : MainOutcome → Nat
  | MainOutcome.exitedVersion => 0
  | MainOutcome.guiUnsupported => 1
  | MainOutcome.showedHelp => 0
  | MainOutcome.configError => 1
  | MainOutcome.missingArgs => 1
  | MainOutcome.ran r => if r.err.isSome then 1 else 0

/-- `main` (part_007), linux build, in source order: `--version`, then
`--gui` (unsupported off Windows), then help (explicit `-h`, or no file
arguments with neither `--clear` nor `--status`), then the cert/key
pairing validation, then the missing-arguments check, then `run`. -/
def mainGo (fl : Flags) (args : List Str) (w : World) (freshKey : RsaKey) :
    World × MainOutcome :=
  if fl.version then (w, MainOutcome.exitedVersion)
  else if fl.gui then (w, MainOutcome.guiUnsupported)
  else if fl.help || (args.isEmpty && !fl.clear && !fl.status) then
    (w, MainOutcome.showedHelp)
  else if !fl.certFile.isEmpty && fl.keyFile.isEmpty then
    (w, MainOutcome.configError)
  else if !fl.keyFile.isEmpty && fl.certFile.isEmpty then
    (w, MainOutcome.configError)
  else if args.isEmpty then (w, MainOutcome.missingArgs)
  else
    let (w', r) := runGo fl args w freshKey
    (w', MainOutcome.ran r)

/-- Projection used to state concrete facts about a finished run. -/
def reportOf : MainOutcome → Option RunReport
  | MainOutcome.ran r => some r
  | _ => none

/- ### Shared sample data for concrete instantiations -/

/-- A concrete private key used to instantiate theorems. -/
def sampleKey : RsaKey := { d := 11, primes := [3, 5] }

/-- A concrete self-issued certificate of this tool under the default
subject name, as `createSelfSignedCertificate` builds it. -/
def sampleCert : Certificate :=
  { subject := "LocalSign-SelfSigned".data,
    cert := certTemplate "LocalSign-SelfSigned".data,
    privateKey := sampleKey }

/-- The certificate value `createSelfSignedCertificate` returns for a
subject and generated key. -/
def generatedCert (subj : Str) (k : RsaKey) : Certificate :=
  { subject := subj, cert := certTemplate subj, privateKey := k }

theorem lookupFs_removeFs_self {α : Type} (k : Str) (fs : FsOf α) :
    lookupFs k (removeFs k fs) = none := by
  induction fs with
  | nil => rfl
  | cons e rest ih =>
    by_cases h : e.1 = k <;> simp [removeFs, lookupFs, h, ih]

theorem lookupFs_removeFs_other {α : Type} (k m : Str) (fs : FsOf α) (h : k ≠ m) :
    lookupFs k (removeFs m fs) = lookupFs k fs := by
  induction fs with
  | nil => rfl
  | cons e rest ih =>
    simp only [removeFs]
    by_cases he : e.1 = m
    · rw [if_pos he, ih]
      have hk : ¬ e.1 = k := by rw [he]; exact Ne.symm h
      simp [lookupFs, hk]
    · rw [if_neg he]
      simp only [lookupFs, ih]

theorem lookupFs_writeFs_self {α : Type} (k : Str) (d : α) (fs : FsOf α) :
    lookupFs k (writeFs k d fs) = some d := by
  simp [writeFs, lookupFs]

theorem lookupFs_writeFs_other {α : Type} (k m : Str) (d : α) (fs : FsOf α) (h : k ≠ m) :
    lookupFs k (writeFs m d fs) = lookupFs k fs := by
  have : ¬ m = k := fun hc => h hc.symm
  simp [writeFs, lookupFs, this, lookupFs_removeFs_other k m fs h]

/-- A name is never equal to itself extended by a nonempty suffix. -/
theorem ne_append_cons (k : Str) (c : Char) (s : Str) : k ≠ k ++ c :: s := by
  intro h
  have := congrArg List.length h
  simp at this

theorem strHasPre_append (p r : Str) : strHasPre p (p ++ r) = true := by
  induction p with
  | nil => rfl
  | cons c cs ih => simp [strHasPre, ih]

theorem strHasPre_append_left (p a x : Str) (h : p.length ≤ a.length) :
    strHasPre p (a ++ x) = strHasPre p a := by
  induction p generalizing a with
  | nil => rfl
  | cons c cs ih =>
    cases a with
    | nil => simp at h
    | cons b bs =>
      simp only [List.cons_append, strHasPre, List.append_eq]
      rw [ih bs (by simpa using h)]

theorem strTrimPre_append (p r : Str) : strTrimPre p (p ++ r) = r := by
  simp [strTrimPre, strHasPre_append]

theorem splitNl_append (a r : Str) (h : ∀ c ∈ a, c ≠ '\n') :
    splitNl (a ++ '\n' :: r) = a :: splitNl r := by
  induction a with
  | nil => simp [splitNl]
  | cons c cs ih =>
    have hc : c ≠ '\n' := h c (by simp)
    have ih' := ih (fun x hx => h x (by simp [hx]))
    simp only [List.cons_append, splitNl, hc, if_false, List.append_eq]
    rw [ih']

/- ### General lemmas about the backend parser -/

theorem parseSigLine_status (st : SignatureStatus) (l : Str) :
    (parseSigLine st l).status = st.status := by
  unfold parseSigLine
  by_cases h1 : strHasPre "SIGNED_BY=".data l
  · simp [h1]
  · by_cases h2 : strHasPre "CERT_SUBJECT=".data l <;> simp [h1, h2]

theorem parseSigLines_status (lines : List Str) (st : SignatureStatus) :
    (lines.foldl parseSigLine st).status = st.status := by
  induction lines generalizing st with
  | nil => rfl
  | cons l ls ih => rw [List.foldl_cons, ih, parseSigLine_status]

/-- The status of a file whose sidecar exists is never `NotSigned`. -/
theorem status_of_present (fs : Fs) (f : Str) (d : FileData)
    (hp : lookupFs (f ++ ".sig".data) fs = some d) :
    (getFileSignatureStatusPlatform fs f).1.status ≠ "NotSigned".data := by
  cases d with
  | unreadable =>
      simp only [getFileSignatureStatusPlatform, hp]
      decide
  | readable c =>
      simp only [getFileSignatureStatusPlatform, hp]
      rw [parseSigLines_status]
      decide

/- ### Claim C6 -/

/-- C6: the status operation never returns an error merely because a
signature is missing: an absent sidecar yields the `NotSigned` state and
never the error state, while an existing sidecar whose bytes cannot be
read yields the error state and never `NotSigned`; on every path the Go
function's error return is nil. -/
theorem c6_status_absence_vs_error (fs : Fs) (f : Str) :
    (getFileSignatureStatusPlatform fs f).2 = none ∧
    (lookupFs (f ++ ".sig".data) fs = none →
      (getFileSignatureStatusPlatform fs f).1.status = "NotSigned".data ∧
      (getFileSignatureStatusPlatform fs f).1.status ≠ "Error reading signature".data) ∧
    (lookupFs (f ++ ".sig".data) fs = some FileData.unreadable →
      (getFileSignatureStatusPlatform fs f).1.status = "Error reading signature".data ∧
      (getFileSignatureStatusPlatform fs f).1.status ≠ "NotSigned".data) := by
  refine ⟨?_, ?_, ?_⟩
  · rcases h : lookupFs (f ++ ".sig".data) fs with _ | d
    · simp [getFileSignatureStatusPlatform, h]
    · cases d <;> simp [getFileSignatureStatusPlatform, h]
  · intro h
    have e1 : (getFileSignatureStatusPlatform fs f).1.status = "NotSigned".data := by
      simp [getFileSignatureStatusPlatform, h]
    exact ⟨e1, by rw [e1]; decide⟩
  · intro h
    have e1 : (getFileSignatureStatusPlatform fs f).1.status =
        "Error reading signature".data := by
      simp [getFileSignatureStatusPlatform, h]
    exact ⟨e1, by rw [e1]; decide⟩

/-- Witness for C6: a never-signed file reports `NotSigned`, and a file
with an unreadable sidecar reports the error state. -/
theorem c6_status_absence_vs_error_witness :
    (getFileSignatureStatusPlatform [] "app".data).1.status = "NotSigned".data ∧
    (getFileSignatureStatusPlatform [("app.sig".data, FileData.unreadable)]
        "app".data).1.status = "Error reading signature".data := by
  constructor
  · exact ((c6_status_absence_vs_error [] "app".data).2.1 (by decide)).1
  · exact ((c6_status_absence_vs_error [("app.sig".data, FileData.unreadable)]
      "app".data).2.2 (by decide)).1

/- ### Claim C7 -/

/-- C7: removing a signature the backend does not classify as
self-signed is a no-op: `removed = false`, no error, and the directory
(hence both the target file and its sidecar) is left unchanged. -/
theorem c7_remove_third_party_noop (fs : Fs) (f : Str) (d : FileData)
    (hp : lookupFs (f ++ ".sig".data) fs = some d)
    (hs : (getFileSignatureStatusPlatform fs f).1.isSelfSigned = false) :
    removeSelfSignedSignaturePlatform fs f = (fs, false, none) := by
  have hns := status_of_present fs f d hp
  simp [removeSelfSignedSignaturePlatform, hns, hs]

/-- Witness for C7: a sidecar naming a third-party signer (subject DN
without the tool's `LocalSign` marker) is reported non-self-signed and
left exactly as it was. -/
theorem c7_remove_third_party_noop_witness :
    removeSelfSignedSignaturePlatform
      [("app.sig".data,
        FileData.readable (sigContent
          { subject := "Vendor".data,
            cert := { commonName := "Vendor".data, issuerCN := "Vendor".data,
                      serialNumber := 5 },
            privateKey := sampleKey }))]
      "app".data
    = ([("app.sig".data,
        FileData.readable (sigContent
          { subject := "Vendor".data,
            cert := { commonName := "Vendor".data, issuerCN := "Vendor".data,
                      serialNumber := 5 },
            privateKey := sampleKey }))], false, none) :=
  c7_remove_third_party_noop _ "app".data
    (FileData.readable (sigContent
      { subject := "Vendor".data,
        cert := { commonName := "Vendor".data, issuerCN := "Vendor".data,
                  serialNumber := 5 },
        privateKey := sampleKey }))
    (by decide) (by decide)

/- ### Claim C10 -/

/-- C10: the backend sign operation does not check that the target file
exists: on a nonexistent target it still reports ok (nil error) and
writes the `<target>.sig` sidecar, and the target itself stays absent. -/
theorem c10_sign_ignores_missing_target (fs : Fs) (cert : Certificate) (f : Str)
    (h : lookupFs f fs = none) :
    (signFilePlatform fs f cert).2 = none ∧
    lookupFs (f ++ ".sig".data) (signFilePlatform fs f cert).1 =
      some (FileData.readable (sigContent cert)) ∧
    lookupFs f (signFilePlatform fs f cert).1 = none := by
  refine ⟨rfl, ?_, ?_⟩
  · simp [signFilePlatform, lookupFs_writeFs_self]
  · have hne : f ≠ f ++ ".sig".data := by
      have hd : ".sig".data = '.' :: "sig".data := rfl
      rw [hd]
      exact ne_append_cons f '.' "sig".data
    have hrw := lookupFs_writeFs_other f (f ++ ".sig".data)
      (FileData.readable (sigContent cert)) fs hne
    simp [signFilePlatform, hrw, h]

/-- Witness for C10: signing a path absent from an empty directory
succeeds and creates only the sidecar. -/
theorem c10_sign_ignores_missing_target_witness :
    (signFilePlatform [] "ghost".data sampleCert).2 = none ∧
    lookupFs ("ghost".data ++ ".sig".data)
        (signFilePlatform [] "ghost".data sampleCert).1 =
      some (FileData.readable (sigContent sampleCert)) ∧
    lookupFs "ghost".data (signFilePlatform [] "ghost".data sampleCert).1 = none :=
  c10_sign_ignores_missing_target [] sampleCert "ghost".data rfl

/- ### General lemmas about the erasure service -/

theorem lookupFs_mem_fst {α : Type} (fs : FsOf α) (n : Str) (d : α)
    (h : lookupFs n fs = some d) : n ∈ fs.map Prod.fst := by
  induction fs with
  | nil => cases h
  | cons e rest ih =>
    by_cases he : e.1 = n
    · rw [List.map_cons, ← he]
      exact List.mem_cons_self _ _
    · simp only [lookupFs, he, if_false] at h
      rw [List.map_cons]
      exact List.mem_cons_of_mem _ (ih h)

theorem securelyDeleteFile_self_lookup (store : StoreFs) (m : Str) :
    lookupFs m (securelyDeleteFile store m).1 = none := by
  rcases hm : lookupFs m store with _ | d
  · simp [securelyDeleteFile, hm]
  · simp [securelyDeleteFile, hm, lookupFs_removeFs_self]

theorem securelyDeleteFile_other_lookup (store : StoreFs) (m n : Str) (h : n ≠ m) :
    lookupFs n (securelyDeleteFile store m).1 = lookupFs n store := by
  rcases hm : lookupFs m store with _ | d
  · simp [securelyDeleteFile, hm]
  · simp [securelyDeleteFile, hm, lookupFs_removeFs_other n m store h]

theorem secureDeleteAll_other (store : StoreFs) (ns : List Str) (n : Str)
    (h : ∀ m ∈ ns, n ≠ m) :
    lookupFs n (secureDeleteAll store ns).1 = lookupFs n store := by
  induction ns generalizing store with
  | nil => rfl
  | cons m rest ih =>
    simp only [secureDeleteAll]
    rw [ih _ (fun x hx => h x (List.mem_cons_of_mem m hx))]
    exact securelyDeleteFile_other_lookup store m n (h m (List.mem_cons_self m rest))

theorem secureDeleteAll_absent (store : StoreFs) (ns : List Str) (n : Str)
    (h : lookupFs n store = none) :
    lookupFs n (secureDeleteAll store ns).1 = none := by
  induction ns generalizing store with
  | nil => exact h
  | cons m rest ih =>
    simp only [secureDeleteAll]
    apply ih
    by_cases hnm : n = m
    · rw [hnm]; exact securelyDeleteFile_self_lookup store m
    · rw [securelyDeleteFile_other_lookup store m n hnm]; exact h

theorem secureDeleteAll_mem (store : StoreFs) (ns : List Str) (n : Str)
    (h : n ∈ ns) : lookupFs n (secureDeleteAll store ns).1 = none := by
  induction ns generalizing store with
  | nil => cases h
  | cons m rest ih =>
    simp only [secureDeleteAll]
    rcases List.mem_cons.mp h with rfl | hr
    · exact secureDeleteAll_absent _ rest n (securelyDeleteFile_self_lookup store n)
    · exact ih _ hr

theorem mem_globNames (store : StoreFs) (pat n : Str) (d : StoreData)
    (h : lookupFs n store = some d) (hm : globMatch pat n = true) :
    n ∈ globNames store pat :=
  List.mem_filter.mpr ⟨lookupFs_mem_fst store n d h, hm⟩

theorem globNames_match (store : StoreFs) (pat n : Str) (h : n ∈ globNames store pat) :
    globMatch pat n = true :=
  (List.mem_filter.mp h).2

theorem securelyDeleteFile_events_disk (store : StoreFs) (m : Str) :
    ∀ e ∈ (securelyDeleteFile store m).2.2, e ≠ EraseEvent.memZero := by
  rcases hm : lookupFs m store with _ | d <;>
    simp [securelyDeleteFile, hm]

theorem secureDeleteAll_events_disk (store : StoreFs) (ns : List Str) :
    ∀ e ∈ (secureDeleteAll store ns).2.2, e ≠ EraseEvent.memZero := by
  induction ns generalizing store with
  | nil => intro e he; cases he
  | cons m rest ih =>
    intro e he
    simp only [secureDeleteAll, List.mem_append] at he
    rcases he with he | he
    · exact securelyDeleteFile_events_disk store m e he
    · exact ih _ e he

/- ### Claim C4 -/

/-- C4: the erasure step never touches a file whose name does not match
the one-time glob patterns `LocalSign-OneTime-*.key` /
`LocalSign-OneTime-*.crt`: the store entry of every such name (its
existence and contents) is unchanged by `securelyDeletePrivateKey`. -/
theorem c4_erase_never_touches_named (privateKey : RsaKey) (store : StoreFs)
    (n : Str)
    (hk : globMatch "LocalSign-OneTime-*.key".data n = false)
    (hc : globMatch "LocalSign-OneTime-*.crt".data n = false) :
    lookupFs n (securelyDeletePrivateKey privateKey store).store =
      lookupFs n store := by
  simp only [securelyDeletePrivateKey]
  rw [secureDeleteAll_other, secureDeleteAll_other]
  · intro m hm hnm
    rw [hnm] at hk
    rw [globNames_match store _ m hm] at hk
    cases hk
  · intro m hm hnm
    rw [hnm] at hc
    rw [globNames_match _ _ m hm] at hc
    cases hc

/-- Witness for C4: erasing with a store holding the named reusable pair
and a one-time pair leaves the named certificate entry intact. -/
theorem c4_erase_never_touches_named_witness :
    lookupFs "LocalSign-SelfSigned.crt".data
      (securelyDeletePrivateKey sampleKey
        [("LocalSign-SelfSigned.crt".data,
          StoreData.certPem (certTemplate "LocalSign-SelfSigned".data)),
         ("LocalSign-SelfSigned.key".data, StoreData.keyPem sampleKey),
         ("LocalSign-OneTime-a1b2c3d4.key".data, StoreData.keyPem sampleKey),
         ("LocalSign-OneTime-a1b2c3d4.crt".data,
          StoreData.certPem (certTemplate "LocalSign-OneTime-a1b2c3d4".data))]).store
    = some (StoreData.certPem (certTemplate "LocalSign-SelfSigned".data)) := by
  rw [c4_erase_never_touches_named sampleKey _ _ (by decide) (by decide)]
  decide

/- ### Claim C3 -/

/-- C3: `securelyDeletePrivateKey` overwrites every numeric component of
the private key (the private exponent and each prime factor) with the
zero value of the component's byte-length buffer, and does so before any
disk activity: the event trace starts with the in-memory zeroing and no
zeroing occurs later, so every overwrite or unlink event comes after it.
After an erase that reports no warnings, both one-time glob patterns
have no matching file left in the store directory. -/
theorem c3_erase_zeroes_key_and_disk (privateKey : RsaKey) (store : StoreFs) :
    (securelyDeletePrivateKey privateKey store).key.d = 0 ∧
    (∀ p ∈ (securelyDeletePrivateKey privateKey store).key.primes, p = 0) ∧
    (securelyDeletePrivateKey privateKey store).key.primes.length =
      privateKey.primes.length ∧
    (∃ rest, (securelyDeletePrivateKey privateKey store).events =
        EraseEvent.memZero :: rest ∧ EraseEvent.memZero ∉ rest) ∧
    ((securelyDeletePrivateKey privateKey store).errs = [] →
      ∀ n, (globMatch "LocalSign-OneTime-*.key".data n = true ∨
            globMatch "LocalSign-OneTime-*.crt".data n = true) →
        lookupFs n (securelyDeletePrivateKey privateKey store).store = none) := by
  refine ⟨?_, ?_, ?_, ?_, ?_⟩
  · simp [securelyDeletePrivateKey, zeroedKey]
  · simp [securelyDeletePrivateKey, zeroedKey]
  · simp [securelyDeletePrivateKey, zeroedKey]
  · refine ⟨(secureDeleteAll store
        (globNames store "LocalSign-OneTime-*.key".data)).2.2
      ++ (secureDeleteAll (secureDeleteAll store
            (globNames store "LocalSign-OneTime-*.key".data)).1
          (globNames (secureDeleteAll store
              (globNames store "LocalSign-OneTime-*.key".data)).1
            "LocalSign-OneTime-*.crt".data)).2.2, rfl, ?_⟩
    intro hmem
    rcases List.mem_append.mp hmem with h | h
    · exact secureDeleteAll_events_disk _ _ _ h rfl
    · exact secureDeleteAll_events_disk _ _ _ h rfl
  · intro _ n hglob
    simp only [securelyDeletePrivateKey]
    rcases hglob with hg | hg
    · rcases h0 : lookupFs n store with _ | d
      · exact secureDeleteAll_absent _ _ n (secureDeleteAll_absent _ _ n h0)
      · apply secureDeleteAll_absent
        exact secureDeleteAll_mem _ _ n (mem_globNames store _ n d h0 hg)
    · rcases h1 : lookupFs n (secureDeleteAll store
          (globNames store "LocalSign-OneTime-*.key".data)).1 with _ | d
      · exact secureDeleteAll_absent _ _ n h1
      · exact secureDeleteAll_mem _ _ n (mem_globNames _ _ n d h1 hg)

/-- Witness for C3: a concrete erase with one one-time pair on disk:
the key components read zero, the trace starts with the memory zeroing,
and no one-time file survives. -/
theorem c3_erase_zeroes_key_and_disk_witness :
    (securelyDeletePrivateKey { d := 9, primes := [7, 13] }
      [("LocalSign-OneTime-a1b2c3d4.key".data, StoreData.keyPem sampleKey),
       ("LocalSign-OneTime-a1b2c3d4.crt".data,
        StoreData.certPem (certTemplate "LocalSign-OneTime-a1b2c3d4".data))]).key.d
      = 0 ∧
    lookupFs "LocalSign-OneTime-a1b2c3d4.key".data
      (securelyDeletePrivateKey { d := 9, primes := [7, 13] }
        [("LocalSign-OneTime-a1b2c3d4.key".data, StoreData.keyPem sampleKey),
         ("LocalSign-OneTime-a1b2c3d4.crt".data,
          StoreData.certPem (certTemplate "LocalSign-OneTime-a1b2c3d4".data))]).store
      = none := by
  constructor
  · exact (c3_erase_zeroes_key_and_disk { d := 9, primes := [7, 13] } _).1
  · exact (c3_erase_zeroes_key_and_disk { d := 9, primes := [7, 13] } _).2.2.2.2
      (by decide) _ (Or.inl (by decide))

/- ### General lemmas about the certificate store adapter -/

theorem append_ne_of_ne (k a b : Str) (h : a ≠ b) : k ++ a ≠ k ++ b := by
  intro hc
  apply h
  induction k with
  | nil => exact hc
  | cons c cs ih => exact ih (List.cons_injective hc)

theorem crt_ne_key (subj : Str) : subj ++ ".crt".data ≠ subj ++ ".key".data :=
  append_ne_of_ne subj ".crt".data ".key".data (by decide)

/-- After `createSelfSignedCertificate`, both store files are present
and parse back to exactly what was generated. -/
theorem createSelfSigned_store (store : StoreFs) (subj : Str) (freshKey : RsaKey) :
    lookupFs (subj ++ ".crt".data) (createSelfSignedCertificate store subj freshKey).store
      = some (StoreData.certPem (certTemplate subj)) ∧
    lookupFs (subj ++ ".key".data) (createSelfSignedCertificate store subj freshKey).store
      = some (StoreData.keyPem freshKey) := by
  constructor
  · rw [show (createSelfSignedCertificate store subj freshKey).store =
        writeFs (subj ++ ".key".data) (StoreData.keyPem freshKey)
          (writeFs (subj ++ ".crt".data) (StoreData.certPem (certTemplate subj)) store)
        from rfl]
    rw [lookupFs_writeFs_other _ _ _ _ (crt_ne_key subj)]
    exact lookupFs_writeFs_self _ _ _
  · exact lookupFs_writeFs_self _ _ _

/- ### Claim C2 -/

/-- C2 as stated is false: when both `<subject>.crt` and `<subject>.key`
exist but fail to parse, named-reuse acquisition does not regenerate; it
returns the load error and leaves the store unchanged. -/
theorem c2_counterexample :
    (getOrCreateSelfSignedCertificate
        [("LocalSign-SelfSigned.crt".data, StoreData.junk),
         ("LocalSign-SelfSigned.key".data, StoreData.junk)]
        "LocalSign-SelfSigned".data sampleKey).generated = false ∧
    (getOrCreateSelfSignedCertificate
        [("LocalSign-SelfSigned.crt".data, StoreData.junk),
         ("LocalSign-SelfSigned.key".data, StoreData.junk)]
        "LocalSign-SelfSigned".data sampleKey).result =
      Except.error "failed to decode or parse PEM certificate" ∧
    (getOrCreateSelfSignedCertificate
        [("LocalSign-SelfSigned.crt".data, StoreData.junk),
         ("LocalSign-SelfSigned.key".data, StoreData.junk)]
        "LocalSign-SelfSigned".data sampleKey).store =
      [("LocalSign-SelfSigned.crt".data, StoreData.junk),
       ("LocalSign-SelfSigned.key".data, StoreData.junk)] := by
  refine ⟨by decide, ?_, by decide⟩
  rfl

/-- C2 amended: only absence triggers generation.  If either store file
is missing, acquisition generates a new self-signed pair, persists both
files and returns the new certificate; if both files exist but either
fails to parse, acquisition returns the parse error, generates nothing
and leaves the store unchanged. -/
theorem c2_amended_absence_generates_unparsable_errors
    (store : StoreFs) (subj : Str) (freshKey : RsaKey) :
    ((lookupFs (subj ++ ".crt".data) store = none ∨
      lookupFs (subj ++ ".key".data) store = none) →
      (getOrCreateSelfSignedCertificate store subj freshKey).generated = true ∧
      (getOrCreateSelfSignedCertificate store subj freshKey).result =
        Except.ok { subject := subj, cert := certTemplate subj,
                    privateKey := freshKey } ∧
      lookupFs (subj ++ ".crt".data)
          (getOrCreateSelfSignedCertificate store subj freshKey).store =
        some (StoreData.certPem (certTemplate subj)) ∧
      lookupFs (subj ++ ".key".data)
          (getOrCreateSelfSignedCertificate store subj freshKey).store =
        some (StoreData.keyPem freshKey)) ∧
    (∀ dc dk : StoreData,
      lookupFs (subj ++ ".crt".data) store = some dc →
      lookupFs (subj ++ ".key".data) store = some dk →
      (parseCertPem dc = none ∨ parseKeyPem dk = none) →
      (getOrCreateSelfSignedCertificate store subj freshKey).generated = false ∧
      (getOrCreateSelfSignedCertificate store subj freshKey).store = store ∧
      ∃ e, (getOrCreateSelfSignedCertificate store subj freshKey).result =
        Except.error e) := by
  constructor
  · intro habs
    have hcond : ((lookupFs (subj ++ ".crt".data) store).isSome &&
        (lookupFs (subj ++ ".key".data) store).isSome) = false := by
      rcases habs with h | h <;> simp [h]
    refine ⟨?_, ?_, ?_, ?_⟩
    · simp [getOrCreateSelfSignedCertificate, hcond, createSelfSignedCertificate]
    · simp [getOrCreateSelfSignedCertificate, hcond, createSelfSignedCertificate]
    · simp only [getOrCreateSelfSignedCertificate, hcond, Bool.false_eq_true,
        if_false]
      exact (createSelfSigned_store store subj freshKey).1
    · simp only [getOrCreateSelfSignedCertificate, hcond, Bool.false_eq_true,
        if_false]
      exact (createSelfSigned_store store subj freshKey).2
  · intro dc dk hdc hdk hbad
    have hcond : ((lookupFs (subj ++ ".crt".data) store).isSome &&
        (lookupFs (subj ++ ".key".data) store).isSome) = true := by
      simp [hdc, hdk]
    refine ⟨?_, ?_, ?_⟩
    · simp [getOrCreateSelfSignedCertificate, hcond]
    · simp [getOrCreateSelfSignedCertificate, hcond]
    · simp only [getOrCreateSelfSignedCertificate, hcond, if_true]
      rcases hbad with hb | hb
      · refine ⟨"failed to decode or parse PEM certificate", ?_⟩
        simp [loadCertificateFromFile, hdc, hb]
      · rcases hpc : parseCertPem dc with _ | c
        · refine ⟨"failed to decode or parse PEM certificate", ?_⟩
          simp [loadCertificateFromFile, hdc, hpc]
        · refine ⟨"failed to parse private key", ?_⟩
          simp [loadCertificateFromFile, hdc, hpc, hdk, hb]

/-- Witness for C2's amended statement: generation happens on an empty
store, and a junk key file next to a junk certificate file produces an
error without regeneration. -/
theorem c2_amended_absence_generates_unparsable_errors_witness :
    (getOrCreateSelfSignedCertificate [] "LocalSign-SelfSigned".data
        sampleKey).generated = true ∧
    (getOrCreateSelfSignedCertificate
        [("LocalSign-SelfSigned.crt".data, StoreData.junk),
         ("LocalSign-SelfSigned.key".data, StoreData.junk)]
        "LocalSign-SelfSigned".data sampleKey).generated = false := by
  constructor
  · exact ((c2_amended_absence_generates_unparsable_errors []
      "LocalSign-SelfSigned".data sampleKey).1 (Or.inl (by decide))).1
  · exact ((c2_amended_absence_generates_unparsable_errors _
      "LocalSign-SelfSigned".data sampleKey).2 StoreData.junk StoreData.junk
      (by decide) (by decide) (Or.inl (by decide))).1

/- ### Claim C8 -/

/-- When both store files exist, `getOrCreateSelfSignedCertificate`
takes the load branch. -/
theorem getOrCreate_present_eq (store : StoreFs) (subj : Str) (freshKey : RsaKey)
    (hcond : ((lookupFs (subj ++ ".crt".data) store).isSome &&
      (lookupFs (subj ++ ".key".data) store).isSome) = true) :
    getOrCreateSelfSignedCertificate store subj freshKey =
      { store := store,
        result := loadCertificateFromFile store (subj ++ ".crt".data)
          (subj ++ ".key".data),
        generated := false, installAttempted := false } := by
  simp only [getOrCreateSelfSignedCertificate]
  rw [if_pos hcond]

/-- When either store file is missing, `getOrCreateSelfSignedCertificate`
takes the generation branch. -/
theorem getOrCreate_absent_eq (store : StoreFs) (subj : Str) (freshKey : RsaKey)
    (hcond : ((lookupFs (subj ++ ".crt".data) store).isSome &&
      (lookupFs (subj ++ ".key".data) store).isSome) = false) :
    getOrCreateSelfSignedCertificate store subj freshKey =
      createSelfSignedCertificate store subj freshKey := by
  simp only [getOrCreateSelfSignedCertificate]
  rw [if_neg (by simp [hcond])]

/-- C8: after a successful named-reuse acquisition, acquiring again for
the same subject with no intervening store change returns the very same
certificate (hence bit-identical serial numbers), takes the load path
(no regeneration), attempts no installation, and leaves the store as it
was. -/
theorem c8_second_acquire_loads (store : StoreFs) (subj : Str)
    (k₁ k₂ : RsaKey) (c₁ : Certificate)
    (h : (getOrCreateSelfSignedCertificate store subj k₁).result = Except.ok c₁) :
    (getOrCreateSelfSignedCertificate
        (getOrCreateSelfSignedCertificate store subj k₁).store subj k₂).result =
      Except.ok c₁ ∧
    (getOrCreateSelfSignedCertificate
        (getOrCreateSelfSignedCertificate store subj k₁).store subj k₂).generated =
      false ∧
    (getOrCreateSelfSignedCertificate
        (getOrCreateSelfSignedCertificate store subj k₁).store subj
        k₂).installAttempted = false ∧
    (getOrCreateSelfSignedCertificate
        (getOrCreateSelfSignedCertificate store subj k₁).store subj k₂).store =
      (getOrCreateSelfSignedCertificate store subj k₁).store := by
  by_cases hcond : ((lookupFs (subj ++ ".crt".data) store).isSome &&
      (lookupFs (subj ++ ".key".data) store).isSome) = true
  · have h1 := getOrCreate_present_eq store subj k₁ hcond
    rw [h1] at h ⊢
    rw [getOrCreate_present_eq store subj k₂ hcond]
    exact ⟨h, rfl, rfl, rfl⟩
  · have hcondF : ((lookupFs (subj ++ ".crt".data) store).isSome &&
        (lookupFs (subj ++ ".key".data) store).isSome) = false := by
      simpa using hcond
    have h1 := getOrCreate_absent_eq store subj k₁ hcondF
    rw [h1] at h ⊢
    have hc : c₁ = generatedCert subj k₁ := (Except.ok.inj h).symm
    have hstore : (createSelfSignedCertificate store subj k₁).store =
        writeFs (subj ++ ".key".data) (StoreData.keyPem k₁)
          (writeFs (subj ++ ".crt".data) (StoreData.certPem (certTemplate subj))
            store) := rfl
    have hlc : lookupFs (subj ++ ".crt".data)
        (createSelfSignedCertificate store subj k₁).store =
        some (StoreData.certPem (certTemplate subj)) := by
      rw [hstore, lookupFs_writeFs_other _ _ _ _ (crt_ne_key subj)]
      exact lookupFs_writeFs_self _ _ _
    have hlk : lookupFs (subj ++ ".key".data)
        (createSelfSignedCertificate store subj k₁).store =
        some (StoreData.keyPem k₁) := by
      rw [hstore]
      exact lookupFs_writeFs_self _ _ _
    have hcond₂ : ((lookupFs (subj ++ ".crt".data)
        (createSelfSignedCertificate store subj k₁).store).isSome &&
        (lookupFs (subj ++ ".key".data)
          (createSelfSignedCertificate store subj k₁).store).isSome) = true := by
      rw [hlc, hlk]; rfl
    rw [getOrCreate_present_eq _ subj k₂ hcond₂]
    refine ⟨?_, rfl, rfl, rfl⟩
    show loadCertificateFromFile (createSelfSignedCertificate store subj k₁).store
      (subj ++ ".crt".data) (subj ++ ".key".data) = Except.ok c₁
    simp only [loadCertificateFromFile, hlc, hlk, parseCertPem, parseKeyPem]
    rw [hc]
    rfl

/-- Witness for C8: acquiring twice on an initially empty store returns
the generated certificate unchanged the second time, with no
regeneration and no installation attempt. -/
theorem c8_second_acquire_loads_witness :
    (getOrCreateSelfSignedCertificate
        (getOrCreateSelfSignedCertificate [] "LocalSign-SelfSigned".data
          sampleKey).store "LocalSign-SelfSigned".data
        { d := 3, primes := [2] }).result =
      Except.ok (generatedCert "LocalSign-SelfSigned".data sampleKey) ∧
    (getOrCreateSelfSignedCertificate
        (getOrCreateSelfSignedCertificate [] "LocalSign-SelfSigned".data
          sampleKey).store "LocalSign-SelfSigned".data
        { d := 3, primes := [2] }).generated = false :=
  have happ := c8_second_acquire_loads [] "LocalSign-SelfSigned".data sampleKey
    { d := 3, primes := [2] } (generatedCert "LocalSign-SelfSigned".data sampleKey)
    (by rfl)
  ⟨happ.1, happ.2.1⟩

/- ### Claim C5 -/

theorem parseSigLine_signed (st : SignatureStatus) (r : Str) :
    parseSigLine st ("SIGNED_BY=".data ++ r) =
      { st with signerCertificate := r } := by
  unfold parseSigLine
  rw [if_pos (strHasPre_append _ r), strTrimPre_append]

theorem parseSigLine_skip (st : SignatureStatus) (l : Str)
    (h1 : strHasPre "SIGNED_BY=".data l = false)
    (h2 : strHasPre "CERT_SUBJECT=".data l = false) :
    parseSigLine st l = st := by
  unfold parseSigLine
  rw [if_neg (by simp [h1]), if_neg (by simp [h2])]

theorem parseSigLine_certsub (st : SignatureStatus) (r : Str) :
    parseSigLine st ("CERT_SUBJECT=".data ++ r) =
      { st with isSelfSigned := strContains r "LocalSign".data } := by
  unfold parseSigLine
  rw [if_neg (by
      rw [strHasPre_append_left "SIGNED_BY=".data "CERT_SUBJECT=".data r
        (by decide)]
      decide),
    if_pos (strHasPre_append _ r), strTrimPre_append]

/-- C5 amended: signing a file and immediately querying its status with
the same backend always yields state `Valid`, but `isSelfSigned` is not
always true: it is the result of the backend's naming-convention check,
`strings.Contains` of the signer's subject DN string for `"LocalSign"`.
It is therefore true for the tool's default and one-time subjects and
false for a tool-produced self-issued certificate under a custom subject
without that marker.  (The newline-freedom hypotheses say the subject
strings do not contain the sidecar's line separator.) -/
theorem c5_signed_status_valid_marker (fs : Fs) (f : Str) (cert : Certificate)
    (h₁ : ∀ c ∈ cert.subject, c ≠ '\n')
    (h₂ : ∀ c ∈ cert.cert.commonName, c ≠ '\n') :
    (getFileSignatureStatusPlatform (signFilePlatform fs f cert).1 f).1 =
      { status := "Valid".data,
        signerCertificate := cert.subject,
        timestampCertificate := [],
        isSelfSigned := strContains ("CN=".data ++ cert.cert.commonName)
          "LocalSign".data } := by
  have hlook : lookupFs (f ++ ".sig".data) (signFilePlatform fs f cert).1 =
      some (FileData.readable (sigContent cert)) :=
    lookupFs_writeFs_self _ _ _
  have hsplit : splitNl (sigContent cert) =
      ["SIGNED_BY=".data ++ cert.subject,
       "TIMESTAMP=2024-01-01T00:00:00Z".data,
       "CERT_SUBJECT=".data ++ ("CN=".data ++ cert.cert.commonName),
       "PLATFORM=linux".data, []] := by
    unfold sigContent certDnStr
    rw [show "SIGNED_BY=".data ++ cert.subject ++
        '\n' :: ("TIMESTAMP=2024-01-01T00:00:00Z".data ++
          '\n' :: ("CERT_SUBJECT=".data ++ ("CN=".data ++ cert.cert.commonName) ++
            '\n' :: ("PLATFORM=linux".data ++ ['\n']))) =
        ("SIGNED_BY=".data ++ cert.subject) ++
        '\n' :: ("TIMESTAMP=2024-01-01T00:00:00Z".data ++
          '\n' :: (("CERT_SUBJECT=".data ++ ("CN=".data ++ cert.cert.commonName)) ++
            '\n' :: ("PLATFORM=linux".data ++ ['\n'])))
      from by simp [List.append_assoc]]
    have hsb : ∀ c ∈ "SIGNED_BY=".data, c ≠ '\n' := by decide
    have hts : ∀ c ∈ "TIMESTAMP=2024-01-01T00:00:00Z".data, c ≠ '\n' := by decide
    have hcs : ∀ c ∈ "CERT_SUBJECT=".data, c ≠ '\n' := by decide
    have hcn : ∀ c ∈ "CN=".data, c ≠ '\n' := by decide
    have hpl : ∀ c ∈ "PLATFORM=linux".data, c ≠ '\n' := by decide
    rw [splitNl_append _ _ (by
      intro c hc
      rcases List.mem_append.mp hc with hx | hx
      · exact hsb c hx
      · exact h₁ c hx)]
    rw [splitNl_append _ _ hts]
    rw [splitNl_append _ _ (by
      intro c hc
      rcases List.mem_append.mp hc with hx | hx
      · exact hcs c hx
      · rcases List.mem_append.mp hx with hy | hy
        · exact hcn c hy
        · exact h₂ c hy)]
    rw [show ("PLATFORM=linux".data ++ ['\n'] : Str) =
        "PLATFORM=linux".data ++ '\n' :: [] from rfl]
    rw [splitNl_append _ _ hpl]
    rfl
  simp only [getFileSignatureStatusPlatform, hlook, hsplit]
  simp only [List.foldl_cons, List.foldl_nil]
  rw [parseSigLine_signed]
  rw [parseSigLine_skip _ "TIMESTAMP=2024-01-01T00:00:00Z".data (by decide)
    (by decide)]
  rw [parseSigLine_certsub]
  rw [parseSigLine_skip _ "PLATFORM=linux".data (by decide) (by decide)]
  rw [parseSigLine_skip _ [] (by decide) (by decide)]
  rfl

/-- Witness for C5's amended statement: with the default subject (which
carries the `LocalSign` marker) the signed-then-queried file reports
`Valid` and `isSelfSigned = true`. -/
theorem c5_signed_status_valid_marker_witness :
    (getFileSignatureStatusPlatform (signFilePlatform [] "app".data sampleCert).1
      "app".data).1.status = "Valid".data ∧
    (getFileSignatureStatusPlatform (signFilePlatform [] "app".data sampleCert).1
      "app".data).1.isSelfSigned = true := by
  rw [c5_signed_status_valid_marker [] "app".data sampleCert (by decide) (by decide)]
  exact ⟨rfl, by decide⟩

/-- C5 as stated is false: a self-issued certificate produced by this
tool under the custom subject "My Custom Cert" (issuer = subject,
generated by `createSelfSignedCertificate`) signs a file that then
reports state `Valid` but `isSelfSigned = false`, because the backend's
self-signed check is a `LocalSign` substring test on the signer name. -/
theorem c5_counterexample :
    (createSelfSignedCertificate [] "My Custom Cert".data sampleKey).result =
      Except.ok (generatedCert "My Custom Cert".data sampleKey) ∧
    (generatedCert "My Custom Cert".data sampleKey).cert.issuerCN =
      (generatedCert "My Custom Cert".data sampleKey).cert.commonName ∧
    (getFileSignatureStatusPlatform
        (signFilePlatform [] "app".data
          (generatedCert "My Custom Cert".data sampleKey)).1
        "app".data).1.status = "Valid".data ∧
    (getFileSignatureStatusPlatform
        (signFilePlatform [] "app".data
          (generatedCert "My Custom Cert".data sampleKey)).1
        "app".data).1.isSelfSigned = false := by
  refine ⟨rfl, rfl, ?_, ?_⟩ <;> decide

/- ### Claim C9 -/

/-- C9 as stated is false on one family of invocations: with the
certificate file flag set and the key file flag empty but no file
arguments (and neither `--clear` nor `--status`), `main` prints help and
exits 0 before the cert/key pairing validation runs, so no configuration
error and no non-zero exit occur. -/
theorem c9_counterexample :
    (mainGo ({ certFile := "mycert.pem".data } : Flags) []
        { target := [], store := [], external := [] } sampleKey).2 =
      MainOutcome.showedHelp ∧
    exitCode (mainGo ({ certFile := "mycert.pem".data } : Flags) []
        { target := [], store := [], external := [] } sampleKey).2 = 0 ∧
    (mainGo ({ certFile := "mycert.pem".data } : Flags) []
        { target := [], store := [], external := [] } sampleKey).2 ≠
      MainOutcome.configError := by
  refine ⟨rfl, rfl, ?_⟩
  decide

/-- C9 amended: every invocation that reaches the flag validation (it is
not a version, GUI or help invocation, and there is at least one file
argument or `--clear`/`--status` is set) with exactly one of the
certificate/key file paths set is rejected as a configuration error with
exit code 1, and the world — target files and certificate store alike —
is completely untouched. -/
theorem c9_config_error_guard (fl : Flags) (args : List Str) (w : World)
    (freshKey : RsaKey)
    (hv : fl.version = false) (hg : fl.gui = false) (hh : fl.help = false)
    (hreach : args ≠ [] ∨ fl.clear = true ∨ fl.status = true)
    (hpair : (fl.certFile ≠ [] ∧ fl.keyFile = []) ∨
             (fl.keyFile ≠ [] ∧ fl.certFile = [])) :
    mainGo fl args w freshKey = (w, MainOutcome.configError) ∧
    exitCode (mainGo fl args w freshKey).2 = 1 := by
  have hhelp : (fl.help || (args.isEmpty && !fl.clear && !fl.status)) = false := by
    rw [hh]
    rcases hreach with h | h | h
    · cases args with
      | nil => exact absurd rfl h
      | cons a as => simp
    · simp [h]
    · simp [h]
  have hmain : mainGo fl args w freshKey = (w, MainOutcome.configError) := by
    rcases hpair with ⟨hcf, hkf⟩ | ⟨hkf, hcf⟩
    · have hc1 : (!fl.certFile.isEmpty && fl.keyFile.isEmpty) = true := by
        rw [hkf]
        cases hce : fl.certFile with
        | nil => exact absurd hce hcf
        | cons a as => rfl
      simp only [mainGo, hv, hg, hhelp, hc1, Bool.false_eq_true, if_false, if_true]
    · have hc1 : (!fl.certFile.isEmpty && fl.keyFile.isEmpty) = false := by
        rw [hcf]
        rfl
      have hc2 : (!fl.keyFile.isEmpty && fl.certFile.isEmpty) = true := by
        rw [hcf]
        cases hke : fl.keyFile with
        | nil => exact absurd hke hkf
        | cons a as => rfl
      simp only [mainGo, hv, hg, hhelp, hc1, hc2, Bool.false_eq_true, if_false,
        if_true]
  exact ⟨hmain, by rw [hmain]; rfl⟩

/-- Witness for C9's amended statement: `-c` without `-k` and one file
argument is rejected as a configuration error, exit 1, world unchanged. -/
theorem c9_config_error_guard_witness :
    mainGo ({ certFile := "mycert.pem".data } : Flags) ["app".data]
        { target := [], store := [], external := [] } sampleKey =
      ({ target := [], store := [], external := [] }, MainOutcome.configError) ∧
    exitCode (mainGo ({ certFile := "mycert.pem".data } : Flags) ["app".data]
        { target := [], store := [], external := [] } sampleKey).2 = 1 :=
  c9_config_error_guard ({ certFile := "mycert.pem".data } : Flags) ["app".data]
    { target := [], store := [], external := [] } sampleKey rfl rfl rfl
    (Or.inl (by decide)) (Or.inl ⟨by decide, rfl⟩)

/- ### Claim C1 -/

/-- C1 as stated is false: signing three paths of which the second does
not exist yields a run whose attempted set is only the two existing
files — the missing path is dropped by `getTargetFiles` with a "File not
found" warning, not recorded as a per-file failure — and the outcome
counts 2 of 2 succeeded with no failed entry (exit code 0). -/
theorem c1_counterexample :
    (mainGo ({} : Flags) ["fileA".data, "fileB".data, "fileC".data]
        { target := [("fileA".data, FileData.readable []),
                     ("fileC".data, FileData.readable [])],
          store := [], external := [] } sampleKey).2 =
      MainOutcome.ran
        { err := none,
          attempted := ["fileA".data, "fileC".data],
          notFound := ["fileB".data],
          signedCount := 2,
          perFile := [("fileA".data, none), ("fileC".data, none)] } ∧
    exitCode (mainGo ({} : Flags) ["fileA".data, "fileB".data, "fileC".data]
        { target := [("fileA".data, FileData.readable []),
                     ("fileC".data, FileData.readable [])],
          store := [], external := [] } sampleKey).2 = 0 := by
  constructor
  · rfl
  · rfl

/-- C1 amended: for a sign run on three plain paths of which exactly the
second does not exist, the run completes non-fatally with exit code 0,
but the missing path is dropped from the attempted set with a "File not
found" warning rather than counted as a failure: the outcome lists the
two existing files as attempted, reports 2 signed, and its per-file
results contain no entry for the missing path. -/
theorem c1_missing_file_dropped (f₁ f₂ f₃ : Str) (w : World)
    (freshKey : RsaKey) (cert : Certificate)
    (hg₁ : hasGlobChar f₁ = false) (hg₂ : hasGlobChar f₂ = false)
    (hg₃ : hasGlobChar f₃ = false)
    (h₁ : (lookupFs f₁ w.target).isSome = true)
    (h₂ : lookupFs f₂ w.target = none)
    (h₃ : (lookupFs f₃ w.target).isSome = true)
    (hne : f₁ ≠ f₃)
    (hacq : (getCertificate ({} : Flags) w freshKey).result = Except.ok cert) :
    reportOf (mainGo ({} : Flags) [f₁, f₂, f₃] w freshKey).2 =
      some { err := none,
             attempted := [f₁, f₃],
             notFound := [f₂],
             signedCount := 2,
             perFile := [(f₁, none), (f₃, none)] } ∧
    exitCode (mainGo ({} : Flags) [f₁, f₂, f₃] w freshKey).2 = 0 := by
  obtain ⟨d₁, hd₁⟩ := Option.isSome_iff_exists.mp h₁
  obtain ⟨d₃, hd₃⟩ := Option.isSome_iff_exists.mp h₃
  have hnm : f₃ ∉ ([f₁] : List Str) := by
    intro hc
    exact hne (List.mem_singleton.mp hc).symm
  have hgtf : getTargetFiles w.target [f₁, f₂, f₃] = ([f₁, f₃], [f₂]) := by
    simp [getTargetFiles, gtfLoop, hg₁, hg₂, hg₃, hd₁, h₂, hd₃, hnm, addUnique,
      Ne.symm hne]
  have hsl : signLoop cert w.target [f₁, f₃] =
      ((signFilePlatform (signFilePlatform w.target f₁ cert).1 f₃ cert).1, 2,
       [(f₁, none), (f₃, none)]) := by
    simp [signLoop, signFilePlatform]
  have hmain : mainGo ({} : Flags) [f₁, f₂, f₃] w freshKey =
      ((runGo ({} : Flags) [f₁, f₂, f₃] w freshKey).1,
       MainOutcome.ran (runGo ({} : Flags) [f₁, f₂, f₃] w freshKey).2) := rfl
  have hrun : runGo ({} : Flags) [f₁, f₂, f₃] w freshKey =
      signFiles ({} : Flags) w freshKey [f₁, f₃] [f₂] := by
    simp [runGo, hgtf]
  have hsf : signFiles ({} : Flags) w freshKey [f₁, f₃] [f₂] =
      ({ target := (signLoop cert w.target [f₁, f₃]).1,
         store := (getCertificate ({} : Flags) w freshKey).store,
         external := w.external },
       { err := none, attempted := [f₁, f₃], notFound := [f₂],
         signedCount := (signLoop cert w.target [f₁, f₃]).2.1,
         perFile := (signLoop cert w.target [f₁, f₃]).2.2 }) := by
    simp only [signFiles, hacq]
  constructor
  · rw [hmain]
    simp only [reportOf]
    rw [hrun, hsf, hsl]
  · rw [hmain]
    simp only [exitCode]
    rw [hrun, hsf]
    rfl

/-- Witness for C1's amended statement at concrete paths (second path
absent): attempted = the two existing files, 2 signed, warning for the
missing one, exit code 0. -/
theorem c1_missing_file_dropped_witness :
    reportOf (mainGo ({} : Flags) ["fileA".data, "fileB".data, "fileC".data]
        { target := [("fileA".data, FileData.readable []),
                     ("fileC".data, FileData.readable [])],
          store := [], external := [] } sampleKey).2 =
      some { err := none,
             attempted := ["fileA".data, "fileC".data],
             notFound := ["fileB".data],
             signedCount := 2,
             perFile := [("fileA".data, none), ("fileC".data, none)] } ∧
    exitCode (mainGo ({} : Flags) ["fileA".data, "fileB".data, "fileC".data]
        { target := [("fileA".data, FileData.readable []),
                     ("fileC".data, FileData.readable [])],
          store := [], external := [] } sampleKey).2 = 0 :=
  c1_missing_file_dropped "fileA".data "fileB".data "fileC".data
    { target := [("fileA".data, FileData.readable []),
                 ("fileC".data, FileData.readable [])],
      store := [], external := [] }
    sampleKey (generatedCert "LocalSign-SelfSigned".data sampleKey)
    (by decide) (by decide) (by decide) (by decide) (by decide) (by decide)
    (by decide) (by rfl)
